import Mathlib

/-!
Verification of the inference HTTP client (`inference_sdk/http/client.py`)
against its natural-language specification.

The client code under `src/inference_sdk/http/client.py` is embedded
directly.  Helper modules of the same repository that are not present under
`src/` (`inference_sdk/http/utils/iterables.py`, `request_building.py`,
`executors.py`, `loaders.py`, `post_processing.py`, `entities.py`,
`errors.py`) are modelled from the specification; each such definition is
marked `Modelled from the spec:` in its doc comment.
-/

deriving instance DecidableEq for Except

namespace InferenceSDK

/-- Protocol mode of the client (`HTTPClientMode` in `entities.py`, not under
`src/`).  Modelled from the spec: "ProtocolMode: enum {Legacy, Current}";
`v0` is Legacy, `v1` is Current. -/
inductive HTTPClientMode where
  | v0
  | v1
  deriving DecidableEq

/-- Description of one registered model (`ModelDescription` in `entities.py`,
not under `src/`).  Modelled from the spec: "ModelDescription: identifier,
task type, optional expected input height/width"; only the fields read by
`client.py` are included. -/
structure ModelDescription where
  model_id : String
  task_type : String
  input_height : Option Nat
  input_width : Option Nat
  deriving DecidableEq

/-- The registry content reported by the backend (`RegisteredModels` in
`entities.py`, not under `src/`).  Modelled from the spec: "RegisteredModels:
ordered set of ModelDescription". -/
structure RegisteredModels where
  models : List ModelDescription
  deriving DecidableEq

/-- Configuration snapshot (`InferenceConfiguration` in `entities.py`, not
under `src/`).  Modelled from the spec: "Configuration: batch size ceiling,
concurrency ceiling, downsizing-disabled flag, default maximum input
dimension"; only the fields the verified claims touch are included. -/
structure InferenceConfiguration where
  max_batch_size : Nat
  max_concurent_requests : Nat
  client_downsizing_disabled : Bool
  default_max_input_size : Nat
  deriving DecidableEq

/-- Typed error taxonomy (`errors.py`, not under `src/`).  Modelled from the
spec, section 7: each constructor is one error kind raised by the client. -/
inductive SdkError where
  | httpCallError (description : String) (status_code : Nat) (api_message : Option String)
  | httpClientError (message : String)
  | invalidModelIdentifier (message : String)
  | invalidParameter (message : String)
  | modelNotInitialized (message : String)
  | modelNotSelected (message : String)
  | modelTaskTypeNotSupported (message : String)
  | wrongClientMode (message : String)
  deriving DecidableEq

/-- Mutable session state owned by the client Facade: the three private
fields set in `InferenceHTTPClient.__init__` (`client.py`, lines 97-106). -/
structure ClientState where
  inference_configuration : InferenceConfiguration
  client_mode : HTTPClientMode
  selected_model : Option String
  deriving DecidableEq

/-- `_determine_client_downsizing_parameters` (`client.py`, lines 1025-1038),
translated directly: if downsizing is disabled return `(None, None)`;
otherwise, if the description is absent or lacks either dimension, return the
default size for both bounds; otherwise return the description's expected
input height and width. -/
def _determine_client_downsizing_parameters
    (client_downsizing_disabled : Bool)
    (model_description : Option ModelDescription)
    (default_max_input_size : Nat) : Option Nat × Option Nat :=
  if client_downsizing_disabled then
    (none, none)
  else
    match model_description with
    | none => (some default_max_input_size, some default_max_input_size)
    | some md =>
      match md.input_height, md.input_width with
      | some h, some w => (some h, some w)
      | none, _ => (some default_max_input_size, some default_max_input_size)
      | _, none => (some default_max_input_size, some default_max_input_size)

/-- C10: the downsizing-disabled flag takes absolute precedence: when it is
set the loader bounds are `(none, none)` whatever the description and default
are; when it is unset, the bounds are the description's height/width if both
are present, and `(default, default)` when the description is absent or lacks
either dimension. -/
theorem claim_C10_downsizing_parameters
    (md : ModelDescription) (omd : Option ModelDescription) (d h w : Nat) :
    _determine_client_downsizing_parameters true omd d = (none, none)
    ∧ (md.input_height = some h → md.input_width = some w →
        _determine_client_downsizing_parameters false (some md) d = (some h, some w))
    ∧ _determine_client_downsizing_parameters false none d = (some d, some d)
    ∧ (md.input_height = none ∨ md.input_width = none →
        _determine_client_downsizing_parameters false (some md) d = (some d, some d)) := by
  refine ⟨rfl, ?_, rfl, ?_⟩
  · intro hh hw
    simp [_determine_client_downsizing_parameters, hh, hw]
  · intro hcases
    rcases hcases with hh | hw
    · simp [_determine_client_downsizing_parameters, hh]
    · cases hh : md.input_height <;>
        simp [_determine_client_downsizing_parameters, hh, hw]

/-- Witness for C10 at concrete inputs. -/
theorem claim_C10_downsizing_parameters_witness :
    (⟨"m/1", "object-detection", some 640, some 480⟩ : ModelDescription).input_height = some 640
    ∧ _determine_client_downsizing_parameters false
        (some ⟨"m/1", "object-detection", some 640, some 480⟩) 1024 = (some 640, some 480) := by
  have h := claim_C10_downsizing_parameters
    ⟨"m/1", "object-detection", some 640, some 480⟩ none 1024 640 480
  exact ⟨by decide, h.2.1 (by decide) (by decide)⟩

/-- One encoded inference input: the encoded payload together with the
per-image scaling factor recorded by the loader.  Modelled from the spec:
"EncodedInput: result of loading one ImageReference — binary/base64 payload
plus a scaling factor (ratio between resized and original dimensions; 1.0 if
untouched)"; the scaling factor is absent when no resize happened
(`loaders.py` is not under `src/`). -/
structure EncodedImage where
  payload : String
  scaling_factor : Option ℚ
  deriving DecidableEq

/-- Recursion core of `make_batches`: `fuel` bounds the number of batches
emitted; `fuel = l.length` always suffices when the batch size is positive. -/
def make_batches_go {α : Type} (batch_size : Nat) : Nat → List α → List (List α)
  | _, [] => []
  | 0, _ => []
  | fuel + 1, l => l.take batch_size :: make_batches_go batch_size fuel (l.drop batch_size)

/-- Modelled from the spec: "packages are formed by slicing the input list
into consecutive groups no larger than the configured batch ceiling, in
original order" (`make_batches` of `iterables.py`, not under `src/`).
Meaningful for `batch_size ≥ 1`. -/
def make_batches {α : Type} (batch_size : Nat) (l : List α) : List (List α) :=
  make_batches_go batch_size l.length l

theorem make_batches_go_flatten {α : Type} (B : Nat) (hB : 1 ≤ B) :
    ∀ (fuel : Nat) (l : List α), l.length ≤ fuel →
      (make_batches_go B fuel l).flatten = l := by
  intro fuel
  induction fuel with
  | zero =>
    intro l hl
    have : l = [] := List.length_eq_zero.mp (Nat.le_zero.mp hl)
    subst this
    rfl
  | succ n ih =>
    intro l hl
    cases l with
    | nil => rfl
    | cons a t =>
      have hdrop : ((a :: t).drop B).length ≤ n := by
        simp only [List.length_drop, List.length_cons]
        simp only [List.length_cons] at hl
        omega
      simp only [make_batches_go, List.flatten_cons, ih _ hdrop,
        List.take_append_drop]

theorem make_batches_go_length {α : Type} (B : Nat) (hB : 1 ≤ B) :
    ∀ (fuel : Nat) (l : List α), l.length ≤ fuel →
      (make_batches_go B fuel l).length = (l.length + B - 1) / B := by
  intro fuel
  induction fuel with
  | zero =>
    intro l hl
    have : l = [] := List.length_eq_zero.mp (Nat.le_zero.mp hl)
    subst this
    simp only [make_batches_go, List.length_nil, Nat.zero_add]
    exact (Nat.div_eq_of_lt (by omega)).symm
  | succ n ih =>
    intro l hl
    cases l with
    | nil =>
      simp only [make_batches_go, List.length_nil, Nat.zero_add]
      exact (Nat.div_eq_of_lt (by omega)).symm
    | cons a t =>
      have hdrop : ((a :: t).drop B).length ≤ n := by
        simp only [List.length_drop, List.length_cons]
        simp only [List.length_cons] at hl
        omega
      simp only [make_batches_go, List.length_cons, ih _ hdrop, List.length_drop]
      rcases Nat.lt_or_ge ((a :: t).length) (B + 1) with hsmall | hbig
      · simp only [List.length_cons] at hsmall ⊢
        have h1 : t.length + 1 - B = 0 := by omega
        rw [h1]
        rw [Nat.div_eq_of_lt (by omega : 0 + B - 1 < B)]
        have h2 : t.length + 1 + B - 1 = (t.length) + B := by omega
        rw [h2]
        rw [Nat.add_div_right _ (by omega : 0 < B)]
        rw [Nat.div_eq_of_lt (by omega : t.length < B)]
      · simp only [List.length_cons] at hbig ⊢
        have h1 : t.length + 1 - B + B - 1 = t.length := by omega
        have h2 : t.length + 1 + B - 1 = t.length + B := by omega
        rw [h1, h2, Nat.add_div_right _ (by omega : 0 < B)]

theorem make_batches_go_sizes {α : Type} (B : Nat) :
    ∀ (fuel : Nat) (l : List α) (c : List α),
      c ∈ make_batches_go B fuel l → c.length ≤ B := by
  intro fuel
  induction fuel with
  | zero =>
    intro l c hc
    cases l <;> simp [make_batches_go] at hc
  | succ n ih =>
    intro l c hc
    cases l with
    | nil => simp [make_batches_go] at hc
    | cons a t =>
      simp only [make_batches_go, List.mem_cons] at hc
      rcases hc with hc | hc
      · subst hc
        simp [List.length_take_le]
      · exact ih _ _ hc

/-- One outbound request package.  Modelled from the spec: "RequestPackage:
target URL, headers, query parameters or JSON payload, the slice of
EncodedInput assigned to it, and the per-image scaling factors aligned by
position" (`request_building.py` is not under `src/`).  Headers, parameters
and payload are kept as opaque key/value templates. -/
structure RequestData where
  url : String
  headers : List (String × String)
  parameters : Option (List (String × String))
  payload : Option (List (String × String))
  images : List String
  image_scaling_factors : List (Option ℚ)
  deriving DecidableEq

/-- Modelled from the spec: "Each package copies the shared
headers/parameters/payload template and attaches only its image slice and the
corresponding scaling-factor slice", with slicing per `make_batches`
(`prepare_requests_data` of `request_building.py`, not under `src/`). -/
def prepare_requests_data (url : String) (encoded_inference_inputs : List EncodedImage)
    (headers : List (String × String)) (parameters : Option (List (String × String)))
    (payload : Option (List (String × String))) (max_batch_size : Nat) : List RequestData :=
  (make_batches max_batch_size encoded_inference_inputs).map
    (fun batch =>
      { url := url
        headers := headers
        parameters := parameters
        payload := payload
        images := batch.map EncodedImage.payload
        image_scaling_factors := batch.map EncodedImage.scaling_factor })

theorem make_batches_flatten {α : Type} (B : Nat) (hB : 1 ≤ B) (l : List α) :
    (make_batches B l).flatten = l :=
  make_batches_go_flatten B hB l.length l (Nat.le_refl _)

theorem make_batches_length {α : Type} (B : Nat) (hB : 1 ≤ B) (l : List α) :
    (make_batches B l).length = (l.length + B - 1) / B :=
  make_batches_go_length B hB l.length l (Nat.le_refl _)

theorem make_batches_sizes {α : Type} (B : Nat) (l : List α) (c : List α)
    (hc : c ∈ make_batches B l) : c.length ≤ B :=
  make_batches_go_sizes B l.length l c hc

/-- C4: under JSON-embedded placement, the Request Builder emits exactly
`⌈N / B⌉` packages for `N` encoded inputs and batch ceiling `B ≥ 1`; every
package carries at most `B` images; and concatenating the image slices (and
the scaling-factor slices) of the packages in order reproduces the input list
exactly — consecutive groups, original order, no overlap, no omission. -/
theorem claim_C4_request_builder (url : String) (encoded_inference_inputs : List EncodedImage)
    (headers : List (String × String)) (parameters payload : Option (List (String × String)))
    (B : Nat) (hB : 1 ≤ B) :
    (prepare_requests_data url encoded_inference_inputs headers parameters payload B).length
        = encoded_inference_inputs.length ⌈/⌉ B
    ∧ (∀ p ∈ prepare_requests_data url encoded_inference_inputs headers parameters payload B,
        p.images.length ≤ B)
    ∧ ((prepare_requests_data url encoded_inference_inputs headers parameters payload B).map
          RequestData.images).flatten = encoded_inference_inputs.map EncodedImage.payload
    ∧ ((prepare_requests_data url encoded_inference_inputs headers parameters payload B).map
          RequestData.image_scaling_factors).flatten
        = encoded_inference_inputs.map EncodedImage.scaling_factor := by
  refine ⟨?_, ?_, ?_, ?_⟩
  · simp only [prepare_requests_data, List.length_map]
    exact make_batches_length B hB encoded_inference_inputs
  · intro p hp
    simp only [prepare_requests_data, List.mem_map] at hp
    obtain ⟨batch, hbatch, rfl⟩ := hp
    simp only [List.length_map]
    exact make_batches_sizes B encoded_inference_inputs batch hbatch
  · simp only [prepare_requests_data, List.map_map, Function.comp_def]
    rw [← List.map_flatten, make_batches_flatten B hB]
  · simp only [prepare_requests_data, List.map_map, Function.comp_def]
    rw [← List.map_flatten, make_batches_flatten B hB]

/-- Witness for C4 at a concrete input: five inputs with ceiling two give
three packages of sizes two, two, one. -/
theorem claim_C4_request_builder_witness :
    (1 : Nat) ≤ 2
    ∧ (prepare_requests_data "http://local/infer/object_detection"
        [⟨"i1", some 1⟩, ⟨"i2", some 1⟩, ⟨"i3", some 1⟩, ⟨"i4", some 1⟩, ⟨"i5", some 1⟩]
        [("Content-Type", "application/json")] none none 2).length = 5 ⌈/⌉ 2 :=
  ⟨by decide,
    (claim_C4_request_builder "http://local/infer/object_detection"
      [⟨"i1", some 1⟩, ⟨"i2", some 1⟩, ⟨"i3", some 1⟩, ⟨"i4", some 1⟩, ⟨"i5", some 1⟩]
      [("Content-Type", "application/json")] none none 2 (by decide)).1⟩

/-- `use_configuration` (`client.py`, lines 120-129): save the current
configuration, install the new one, run the body, and restore the saved value
in a `finally` block.  The body is any state transformer that may itself
mutate the session state and may end in an error; both its outcome and its
final state are threaded through, and the override restores the saved field
on that final state on every exit path. -/
def use_configuration {α : Type} (s : ClientState)
    (inference_configuration : InferenceConfiguration)
    (body : ClientState → Except SdkError α × ClientState) :
    Except SdkError α × ClientState :=
  let previous_configuration := s.inference_configuration
  let step := body { s with inference_configuration := inference_configuration }
  (step.1, { step.2 with inference_configuration := previous_configuration })

/-- `use_api_v0` (`client.py`, lines 145-152): scoped switch of the client
mode to V0, restoring the previous mode on any exit path. -/
def use_api_v0 {α : Type} (s : ClientState)
    (body : ClientState → Except SdkError α × ClientState) :
    Except SdkError α × ClientState :=
  let previous_client_mode := s.client_mode
  let step := body { s with client_mode := HTTPClientMode.v0 }
  (step.1, { step.2 with client_mode := previous_client_mode })

/-- `use_api_v1` (`client.py`, lines 154-161): scoped switch of the client
mode to V1, restoring the previous mode on any exit path. -/
def use_api_v1 {α : Type} (s : ClientState)
    (body : ClientState → Except SdkError α × ClientState) :
    Except SdkError α × ClientState :=
  let previous_client_mode := s.client_mode
  let step := body { s with client_mode := HTTPClientMode.v1 }
  (step.1, { step.2 with client_mode := previous_client_mode })

/-- `use_model` (`client.py`, lines 167-174): scoped selection of a model,
restoring the previous selection on any exit path. -/
def use_model {α : Type} (s : ClientState) (model_id : String)
    (body : ClientState → Except SdkError α × ClientState) :
    Except SdkError α × ClientState :=
  let previous_model := s.selected_model
  let step := body { s with selected_model := some model_id }
  (step.1, { step.2 with selected_model := previous_model })

/-- C6: every scoped override restores exactly its own session field to the
value it had before entry, on every exit path — the statement quantifies over
an arbitrary body, so in particular over bodies ending in an error — and the
override itself leaves the other two session fields exactly as the body left
them, and hands the body's outcome through unchanged. -/
theorem claim_C6_scoped_overrides {α : Type} (s : ClientState)
    (cfg : InferenceConfiguration) (model_id : String)
    (body : ClientState → Except SdkError α × ClientState) :
    ((use_configuration s cfg body).2.inference_configuration = s.inference_configuration
      ∧ (use_configuration s cfg body).2.client_mode
          = (body { s with inference_configuration := cfg }).2.client_mode
      ∧ (use_configuration s cfg body).2.selected_model
          = (body { s with inference_configuration := cfg }).2.selected_model
      ∧ (use_configuration s cfg body).1 = (body { s with inference_configuration := cfg }).1)
    ∧ ((use_api_v0 s body).2.client_mode = s.client_mode
      ∧ (use_api_v0 s body).2.inference_configuration
          = (body { s with client_mode := HTTPClientMode.v0 }).2.inference_configuration
      ∧ (use_api_v0 s body).2.selected_model
          = (body { s with client_mode := HTTPClientMode.v0 }).2.selected_model
      ∧ (use_api_v0 s body).1 = (body { s with client_mode := HTTPClientMode.v0 }).1)
    ∧ ((use_api_v1 s body).2.client_mode = s.client_mode
      ∧ (use_api_v1 s body).2.inference_configuration
          = (body { s with client_mode := HTTPClientMode.v1 }).2.inference_configuration
      ∧ (use_api_v1 s body).2.selected_model
          = (body { s with client_mode := HTTPClientMode.v1 }).2.selected_model
      ∧ (use_api_v1 s body).1 = (body { s with client_mode := HTTPClientMode.v1 }).1)
    ∧ ((use_model s model_id body).2.selected_model = s.selected_model
      ∧ (use_model s model_id body).2.inference_configuration
          = (body { s with selected_model := some model_id }).2.inference_configuration
      ∧ (use_model s model_id body).2.client_mode
          = (body { s with selected_model := some model_id }).2.client_mode
      ∧ (use_model s model_id body).1 = (body { s with selected_model := some model_id }).1) := by
  refine ⟨⟨rfl, rfl, rfl, rfl⟩, ⟨rfl, rfl, rfl, rfl⟩, ⟨rfl, rfl, rfl, rfl⟩,
    ⟨rfl, rfl, rfl, rfl⟩⟩

/-- The parts of a non-2xx HTTP response that `wrap_errors` inspects: the
status code, the `Content-Type` header (empty string when absent, matching
`headers.get("Content-Type", "")`), the `message` field of the JSON body when
present, and the raw response text. -/
structure ErrorResponse where
  status_code : Nat
  content_type : String
  json_message : Option String
  text : String
  deriving DecidableEq

/-- A failure escaping the transport layer before translation: either an
`HTTPError` raised by `raise_for_status` and carrying the response, or a
low-level `ConnectionError`. -/
inductive LowLevelError where
  | httpError (description : String) (response : ErrorResponse)
  | connectionError (description : String)
  deriving DecidableEq

/-- The `"application/json" in error.response.headers.get("Content-Type", "")`
test of `wrap_errors`: substring containment of `application/json` in the
declared content type. -/
def content_type_declares_json (content_type : String) : Bool :=
  decide (List.IsInfix "application/json".toList content_type.toList)

/-- `wrap_errors` (`client.py`, lines 74-93), applied to the outcome of the
wrapped call: a successful outcome passes through untouched; an `HTTPError`
becomes an `HTTPCallErrorError` carrying the response status code and, as API
message, the JSON body's `message` field when the content type declares JSON
and the raw response text otherwise; a `ConnectionError` becomes an
`HTTPClientError`. -/
def wrap_errors {α : Type} (result : Except LowLevelError α) : Except SdkError α :=
  match result with
  | .ok value => .ok value
  | .error (.httpError description response) =>
    let api_message :=
      if content_type_declares_json response.content_type then
        response.json_message
      else
        some response.text
    .error (.httpCallError description response.status_code api_message)
  | .error (.connectionError description) =>
    .error (.httpClientError s!"Error with server connection: {description}")

/-- C8: the Error Translator maps every non-2xx HTTP failure to a `CallError`
carrying the response's status code, whose message is the JSON body's
`message` field when the response declares a JSON content type and the raw
response text otherwise; a successful outcome is passed through unchanged, so
the original result is never swallowed, and the translator issues no further
attempt — its output is a single error derived from the single failure. -/
theorem claim_C8_error_translation {α : Type} (value : α)
    (description : String) (response : ErrorResponse) :
    wrap_errors (Except.ok value) = (Except.ok value : Except SdkError α)
    ∧ (∃ msg : Option String,
        wrap_errors (α := α) (Except.error (LowLevelError.httpError description response))
          = Except.error (SdkError.httpCallError description response.status_code msg)
        ∧ (content_type_declares_json response.content_type = true →
            msg = response.json_message)
        ∧ (content_type_declares_json response.content_type = false →
            msg = some response.text)) := by
  refine ⟨rfl, ?_⟩
  by_cases hct : content_type_declares_json response.content_type
  · exact ⟨response.json_message, by simp [wrap_errors, hct], fun _ => rfl,
      fun hf => absurd hct (by simp [hf])⟩
  · exact ⟨some response.text, by simp [wrap_errors, hct], fun ht => absurd ht (by simp_all),
      fun _ => rfl⟩

/-- Witness for C8 at concrete responses: a JSON-typed 404 with a `message`
field yields that message; a plain-text 500 yields the raw text. -/
theorem claim_C8_error_translation_witness :
    (∃ msg : Option String,
      wrap_errors (α := Nat) (Except.error (LowLevelError.httpError "404 Client Error"
          ⟨404, "application/json; charset=utf-8", some "model not found", "body"⟩))
        = Except.error (SdkError.httpCallError "404 Client Error" 404 msg)
      ∧ (content_type_declares_json "application/json; charset=utf-8" = true →
          msg = some "model not found")
      ∧ (content_type_declares_json "application/json; charset=utf-8" = false →
          msg = some "body")) :=
  (claim_C8_error_translation (0 : Nat) "404 Client Error"
    ⟨404, "application/json; charset=utf-8", some "model not found", "body"⟩).2

/-- One network call issued by the registry client or an auxiliary endpoint;
traces of these record what reached the network. -/
inductive ApiCall where
  | listModels
  | loadModel (model_id : String)
  | unloadModel (model_id : String)
  | clearModels
  | gazeDetection
  | cogvlmPrompt
  deriving DecidableEq

/-- The backend as the registry client observes it during one interaction:
the registry content reported before and after a load call, the registry
payloads returned by the mutation endpoints, and whether each endpoint
answers with a 2xx status (`false` makes `raise_for_status` raise). -/
structure Backend where
  registry_before : List ModelDescription
  registry_after_load : List ModelDescription
  unload_response : List ModelDescription
  clear_response : List ModelDescription
  list_ok : Bool
  load_ok : Bool
  unload_ok : Bool
  clear_ok : Bool
  deriving DecidableEq

/-- Error raised by `__ensure_v1_client_mode` (`client.py`, lines 1020-1022). -/
def wrong_mode_error : SdkError :=
  SdkError.wrongClientMode "Use client mode `v1` to run this operation."

/-- Stand-in error for a non-2xx status raised by `raise_for_status` at an
endpoint; its content is irrelevant to the claims, only that the call fails. -/
def http_status_error : SdkError :=
  SdkError.httpCallError "non-2xx status" 500 none

/-- `list_loaded_models` (`client.py`, lines 521-527): guard on V1 mode, then
`GET /model/registry` and parse the registry payload.  `loaded` says whether
the load endpoint has been hit earlier in this interaction, which is what
decides the backend's reported registry content.  Returns the outcome, the
resulting session state, and the trace of network calls. -/
def list_loaded_models (s : ClientState) (b : Backend) (loaded : Bool) :
    Except SdkError RegisteredModels × ClientState × List ApiCall :=
  if s.client_mode ≠ HTTPClientMode.v1 then
    (.error wrong_mode_error, s, [])
  else if b.list_ok then
    (.ok ⟨if loaded then b.registry_after_load else b.registry_before⟩, s, [.listModels])
  else
    (.error http_status_error, s, [.listModels])

/-- `load_model` (`client.py`, lines 538-555): guard on V1 mode, then
`POST /model/add`; on success the registry payload is returned and, when
`set_as_default` is set, the selected model becomes `model_id`. -/
def load_model (s : ClientState) (b : Backend) (model_id : String)
    (set_as_default : Bool) :
    Except SdkError RegisteredModels × ClientState × List ApiCall :=
  if s.client_mode ≠ HTTPClientMode.v1 then
    (.error wrong_mode_error, s, [])
  else if b.load_ok then
    (.ok ⟨b.registry_after_load⟩,
      (if set_as_default then { s with selected_model := some model_id } else s),
      [.loadModel model_id])
  else
    (.error http_status_error, s, [.loadModel model_id])

/-- `unload_model` (`client.py`, lines 578-592): guard on V1 mode, then
`POST /model/remove`; on success, if the unloaded identifier equals the
currently selected model the selection is cleared. -/
def unload_model (s : ClientState) (b : Backend) (model_id : String) :
    Except SdkError RegisteredModels × ClientState × List ApiCall :=
  if s.client_mode ≠ HTTPClientMode.v1 then
    (.error wrong_mode_error, s, [])
  else if b.unload_ok then
    (.ok ⟨b.unload_response⟩,
      (if some model_id = s.selected_model then { s with selected_model := none } else s),
      [.unloadModel model_id])
  else
    (.error http_status_error, s, [.unloadModel model_id])

/-- `unload_all_models` (`client.py`, lines 611-618): guard on V1 mode, then
`POST /model/clear`; on success the selection is cleared unconditionally. -/
def unload_all_models (s : ClientState) (b : Backend) :
    Except SdkError RegisteredModels × ClientState × List ApiCall :=
  if s.client_mode ≠ HTTPClientMode.v1 then
    (.error wrong_mode_error, s, [])
  else if b.clear_ok then
    (.ok ⟨b.clear_response⟩, { s with selected_model := none }, [.clearModels])
  else
    (.error http_status_error, s, [.clearModels])

/-- `detect_gazes` (`client.py`, lines 713-722), to the extent C5 needs it:
the V1-mode guard runs first, so in V0 mode no network call is made; in V1
mode the gaze endpoint is hit (the response content is external). -/
def detect_gazes (s : ClientState) :
    Except SdkError Unit × ClientState × List ApiCall :=
  if s.client_mode ≠ HTTPClientMode.v1 then
    (.error wrong_mode_error, s, [])
  else
    (.ok (), s, [.gazeDetection])

/-- `prompt_cogvlm` (`client.py`, lines 630-658), to the extent C5 needs it:
the V1-mode guard runs first, so in V0 mode no network call is made; in V1
mode the CogVLM endpoint is hit (the response content is external). -/
def prompt_cogvlm (s : ClientState) :
    Except SdkError Unit × ClientState × List ApiCall :=
  if s.client_mode ≠ HTTPClientMode.v1 then
    (.error wrong_mode_error, s, [])
  else
    (.ok (), s, [.cogvlmPrompt])

/-- Recursion core of `get_model_description` (`client.py`, lines 485-500).
The source's boolean `allow_loading` is encoded as the number of loads still
permitted (`True` ↦ 1, `False` ↦ 0) so that the self-call with
`allow_loading=False` is structural recursion.  Body, in source order: guard
on V1 mode; fetch the registry; filter it for the identifier and return the
first match if any; otherwise, if a load is still permitted, issue one load
call and re-run with loading disallowed; otherwise raise
`ModelNotInitializedError`. -/
def get_model_description_go (s : ClientState) (b : Backend) (model_id : String) :
    Nat → Bool → Except SdkError ModelDescription × List ApiCall
  | loads_permitted, loaded =>
    if s.client_mode ≠ HTTPClientMode.v1 then
      (.error wrong_mode_error, [])
    else
      match list_loaded_models s b loaded with
      | (.error e, _, calls) => (.error e, calls)
      | (.ok registered_models, _, calls) =>
        match registered_models.models.filter (fun e => e.model_id == model_id) with
        | matching :: _ => (.ok matching, calls)
        | [] =>
          match loads_permitted with
          | n + 1 =>
            match load_model s b model_id false with
            | (.error e, _, load_calls) => (.error e, calls ++ load_calls)
            | (.ok _, _, load_calls) =>
              let retry := get_model_description_go s b model_id n true
              (retry.1, calls ++ load_calls ++ retry.2)
          | 0 =>
            (.error (.modelNotInitialized
              s!"Model {model_id} is not initialised and cannot retrieve its description."),
              calls)

/-- `get_model_description` (`client.py`, lines 485-500) with its trace of
network calls; `allow_loading` defaults to `True` at the public surface. -/
def get_model_description (s : ClientState) (b : Backend) (model_id : String)
    (allow_loading : Bool) : Except SdkError ModelDescription × List ApiCall :=
  get_model_description_go s b model_id (if allow_loading then 1 else 0) false

/-- Counts the load calls in a trace. -/
def load_call_count (calls : List ApiCall) : Nat :=
  calls.countP (fun c => match c with | .loadModel _ => true | _ => false)

theorem list_loaded_models_no_load (s : ClientState) (b : Backend) (loaded : Bool) :
    load_call_count (list_loaded_models s b loaded).2.2 = 0 := by
  unfold list_loaded_models
  split
  · rfl
  · split <;> rfl

theorem load_model_one_load (s : ClientState) (b : Backend) (model_id : String)
    (set_as_default : Bool) :
    load_call_count (load_model s b model_id set_as_default).2.2 ≤ 1 := by
  unfold load_model
  split
  · exact Nat.zero_le 1
  · split <;> simp [load_call_count]

theorem load_call_count_append (l₁ l₂ : List ApiCall) :
    load_call_count (l₁ ++ l₂) = load_call_count l₁ + load_call_count l₂ :=
  List.countP_append _ _ _

theorem load_call_count_go_le (s : ClientState) (b : Backend) (model_id : String) :
    ∀ (n : Nat) (loaded : Bool),
      load_call_count (get_model_description_go s b model_id n loaded).2 ≤ n := by
  intro n
  induction n with
  | zero =>
    intro loaded
    rw [get_model_description_go]
    split
    · exact Nat.le_refl 0
    · split
      · next e s' calls heq =>
        have h0 := list_loaded_models_no_load s b loaded
        rw [heq] at h0
        exact Nat.le_of_eq h0
      · next regs s' calls heq =>
        have h0 := list_loaded_models_no_load s b loaded
        rw [heq] at h0
        split
        · exact Nat.le_of_eq h0
        · exact Nat.le_of_eq h0
  | succ n ih =>
    intro loaded
    rw [get_model_description_go]
    split
    · exact Nat.zero_le _
    · split
      · next e s' calls heq =>
        have h0 := list_loaded_models_no_load s b loaded
        rw [heq] at h0
        simp only [h0]
        omega
      · next regs s' calls heq =>
        have h0 := list_loaded_models_no_load s b loaded
        rw [heq] at h0
        have h0' : load_call_count calls = 0 := h0
        split
        · exact Nat.le_trans (Nat.le_of_eq h0') (Nat.zero_le _)
        · split
          · next m heq2 =>
            split
            · next e s'' load_calls heq3 =>
              have h1 := load_model_one_load s b model_id false
              rw [heq3] at h1
              have h1' : load_call_count load_calls ≤ 1 := h1
              show load_call_count (calls ++ load_calls) ≤ n + 1
              rw [load_call_count_append]
              omega
            · next regs2 s'' load_calls heq3 =>
              have h1 := load_model_one_load s b model_id false
              rw [heq3] at h1
              have h1' : load_call_count load_calls ≤ 1 := h1
              have h2 : load_call_count (get_model_description_go s b model_id m true).2 ≤ n := by
                rw [show m = n from by omega]
                exact ih true
              show load_call_count
                  (calls ++ load_calls ++ (get_model_description_go s b model_id m true).2)
                    ≤ n + 1
              rw [load_call_count_append, load_call_count_append]
              omega
          · next heq2 => exact absurd heq2 (by omega)

/-- C2: describe-or-load issues at most one load call.  If the identifier is
already present in the fetched registry, its first matching description is
returned and the trace is a single registry fetch with no load; if it is
absent both before and after the load — a backend that never registers the
model — the trace is exactly fetch, one load, one re-fetch, ending in
`ModelNotInitializedError`; and for every state, backend and loading flag the
trace of a description request carries at most one load call. -/
theorem claim_C2_describe_or_load (s : ClientState) (b : Backend) (model_id : String)
    (hmode : s.client_mode = HTTPClientMode.v1)
    (hlist : b.list_ok = true) (hload : b.load_ok = true) :
    (∀ (m : ModelDescription) (rest : List ModelDescription),
      b.registry_before.filter (fun e => e.model_id == model_id) = m :: rest →
      get_model_description s b model_id true = (.ok m, [.listModels]))
    ∧ (b.registry_before.filter (fun e => e.model_id == model_id) = [] →
       b.registry_after_load.filter (fun e => e.model_id == model_id) = [] →
      get_model_description s b model_id true =
        (.error (.modelNotInitialized
          s!"Model {model_id} is not initialised and cannot retrieve its description."),
         [.listModels, .loadModel model_id, .listModels]))
    ∧ (∀ (s' : ClientState) (b' : Backend) (id' : String) (allow_loading : Bool),
        load_call_count (get_model_description s' b' id' allow_loading).2 ≤ 1) := by
  refine ⟨?_, ?_, ?_⟩
  · intro m rest hfilter
    rw [get_model_description, if_pos rfl, get_model_description_go]
    simp [hmode, list_loaded_models, hlist, hfilter]
  · intro hbefore hafter
    rw [get_model_description, if_pos rfl, get_model_description_go]
    simp only [hmode, list_loaded_models, hlist]
    rw [get_model_description_go]
    simp [hmode, list_loaded_models, load_model, hlist, hload, hbefore, hafter]
  · intro s' b' id' allow_loading
    unfold get_model_description
    split
    · exact load_call_count_go_le s' b' id' 1 false
    · exact Nat.le_trans (load_call_count_go_le s' b' id' 0 false) (Nat.zero_le 1)

/-- Witness for C2: a backend that never registers `m/1` sees exactly the
trace fetch–load–fetch and the call ends in `ModelNotInitializedError`. -/
theorem claim_C2_describe_or_load_witness :
    ([] : List ModelDescription).filter (fun e => e.model_id == "m/1") = []
    ∧ get_model_description ⟨⟨4, 8, false, 1024⟩, HTTPClientMode.v1, none⟩
        ⟨[], [], [], [], true, true, true, true⟩ "m/1" true =
        (.error (.modelNotInitialized
          "Model m/1 is not initialised and cannot retrieve its description."),
         [.listModels, .loadModel "m/1", .listModels]) :=
  ⟨by decide,
    (claim_C2_describe_or_load ⟨⟨4, 8, false, 1024⟩, HTTPClientMode.v1, none⟩
      ⟨[], [], [], [], true, true, true, true⟩ "m/1" rfl rfl rfl).2.1 (by decide) (by decide)⟩

/-- C5: in Legacy (V0) mode every Current-only operation — registry listing
and mutation, gaze detection, the CogVLM vision-language prompt, and the
describe-or-load routine that guards them — fails with `WrongClientModeError`,
issues no network call (empty trace), and leaves the session state exactly as
it was. -/
theorem claim_C5_legacy_mode_gating (s : ClientState) (b : Backend)
    (model_id : String) (set_as_default loaded allow_loading : Bool)
    (hmode : s.client_mode = HTTPClientMode.v0) :
    list_loaded_models s b loaded = (.error wrong_mode_error, s, [])
    ∧ load_model s b model_id set_as_default = (.error wrong_mode_error, s, [])
    ∧ unload_model s b model_id = (.error wrong_mode_error, s, [])
    ∧ unload_all_models s b = (.error wrong_mode_error, s, [])
    ∧ detect_gazes s = (.error wrong_mode_error, s, [])
    ∧ prompt_cogvlm s = (.error wrong_mode_error, s, [])
    ∧ get_model_description s b model_id allow_loading = (.error wrong_mode_error, []) := by
  refine ⟨?_, ?_, ?_, ?_, ?_, ?_, ?_⟩
  · simp [list_loaded_models, hmode]
  · simp [load_model, hmode]
  · simp [unload_model, hmode]
  · simp [unload_all_models, hmode]
  · simp [detect_gazes, hmode]
  · simp [prompt_cogvlm, hmode]
  · rw [get_model_description, get_model_description_go]
    simp [hmode]

/-- Witness for C5 at a concrete Legacy-mode client. -/
theorem claim_C5_legacy_mode_gating_witness :
    (⟨⟨4, 8, false, 1024⟩, HTTPClientMode.v0, some "m/1"⟩ : ClientState).client_mode
        = HTTPClientMode.v0
    ∧ list_loaded_models ⟨⟨4, 8, false, 1024⟩, HTTPClientMode.v0, some "m/1"⟩
        ⟨[], [], [], [], true, true, true, true⟩ false =
        (.error wrong_mode_error, ⟨⟨4, 8, false, 1024⟩, HTTPClientMode.v0, some "m/1"⟩, []) :=
  ⟨rfl,
    (claim_C5_legacy_mode_gating ⟨⟨4, 8, false, 1024⟩, HTTPClientMode.v0, some "m/1"⟩
      ⟨[], [], [], [], true, true, true, true⟩ "m/2" false false true rfl).1⟩

/-- C9: after a successful `unload_model`, the selection is cleared exactly
when the unloaded identifier equals the currently selected model and is
untouched otherwise; after a successful `unload_all_models` the selection is
cleared whatever it was. -/
theorem claim_C9_unload_clears_selection (s : ClientState) (b : Backend) (model_id : String)
    (hmode : s.client_mode = HTTPClientMode.v1)
    (hunload : b.unload_ok = true) (hclear : b.clear_ok = true) :
    ((unload_model s b model_id).1 = .ok ⟨b.unload_response⟩
      ∧ (some model_id = s.selected_model →
          (unload_model s b model_id).2.1.selected_model = none)
      ∧ (some model_id ≠ s.selected_model →
          (unload_model s b model_id).2.1.selected_model = s.selected_model))
    ∧ ((unload_all_models s b).1 = .ok ⟨b.clear_response⟩
      ∧ (unload_all_models s b).2.1.selected_model = none) := by
  refine ⟨⟨?_, ?_, ?_⟩, ?_, ?_⟩
  · simp [unload_model, hmode, hunload]
  · intro h
    simp [unload_model, hmode, hunload, h]
  · intro h
    simp [unload_model, hmode, hunload, h]
  · simp [unload_all_models, hmode, hclear]
  · simp [unload_all_models, hmode, hclear]

/-- Witness for C9: unloading the selected `m/1` clears the selection, and
unloading all models clears a selection of `m/2`. -/
theorem claim_C9_unload_clears_selection_witness :
    (unload_model ⟨⟨4, 8, false, 1024⟩, HTTPClientMode.v1, some "m/1"⟩
        ⟨[], [], [], [], true, true, true, true⟩ "m/1").2.1.selected_model = none
    ∧ (unload_all_models ⟨⟨4, 8, false, 1024⟩, HTTPClientMode.v1, some "m/2"⟩
        ⟨[], [], [], [], true, true, true, true⟩).2.1.selected_model = none :=
  ⟨(claim_C9_unload_clears_selection ⟨⟨4, 8, false, 1024⟩, HTTPClientMode.v1, some "m/1"⟩
      ⟨[], [], [], [], true, true, true, true⟩ "m/1" rfl rfl rfl).1.2.1 (by decide),
    (claim_C9_unload_clears_selection ⟨⟨4, 8, false, 1024⟩, HTTPClientMode.v1, some "m/2"⟩
      ⟨[], [], [], [], true, true, true, true⟩ "m/1" rfl rfl rfl).2.2⟩

/-- Modelled from the spec: the Request Executor runs the packages
concurrently and "results are always correlated back to their originating
package by position, never by completion time" (`executors.py` is not under
`src/`; both the blocking worker-pool mode and the non-blocking task mode are
the same semantic contract per spec, section 5).  `respond` is the network's
answer to one package, `completion_order` is the order in which the
in-flight requests happen to complete — an arbitrary schedule; as each
request at position `i` completes, its result is stored in slot `i`, and the
output reads the slots in position order. -/
def execute_requests_packages {Pkg Resp : Type} (respond : Pkg → Resp)
    (completion_order : List Nat) (requests_data : List Pkg) : List (Option Resp) :=
  let final_slots :=
    completion_order.foldl
      (fun slots i => fun j => if j = i then (requests_data[i]?).map respond else slots j)
      (fun _ => none)
  (List.range requests_data.length).map final_slots

theorem execute_requests_packages_slots {Pkg Resp : Type} (respond : Pkg → Resp)
    (requests_data : List Pkg) :
    ∀ (completion_order : List Nat) (slots : Nat → Option Resp) (j : Nat),
      completion_order.foldl
        (fun slots i => fun k => if k = i then (requests_data[i]?).map respond else slots k)
        slots j
      = if j ∈ completion_order then (requests_data[j]?).map respond else slots j := by
  intro completion_order
  induction completion_order with
  | nil => intro slots j; simp
  | cons i rest ih =>
    intro slots j
    rw [List.foldl_cons, ih]
    by_cases hjr : j ∈ rest
    · simp [hjr]
    · by_cases hji : j = i
      · subst hji
        simp [hjr]
      · simp [hjr, hji, List.mem_cons]

/-- C3: whenever the completion schedule reaches every package position —
in particular for every permutation of the positions, however the threads or
tasks are scheduled — the Request Executor's output is exactly the input
package list mapped through the network response, element `i` of the output
being the response to package `i`: results are ordered by originating
position, never by completion time. -/
theorem claim_C3_executor_ordering {Pkg Resp : Type} (respond : Pkg → Resp)
    (completion_order : List Nat) (requests_data : List Pkg)
    (hcover : ∀ i, i < requests_data.length → i ∈ completion_order) :
    execute_requests_packages respond completion_order requests_data
      = requests_data.map (fun p => some (respond p)) := by
  unfold execute_requests_packages
  refine List.ext_getElem (by simp) ?_
  intro i hi hi'
  simp only [List.getElem_map, List.getElem_range]
  rw [execute_requests_packages_slots]
  have hilen : i < requests_data.length := by simpa using hi
  rw [if_pos (hcover i hilen)]
  simp [List.getElem?_eq_getElem hilen]

/-- Witness for C3: three packages completing in the order 2, 0, 1 still
yield the responses in input order. -/
theorem claim_C3_executor_ordering_witness :
    (∀ i, i < ([10, 20, 30] : List Nat).length → i ∈ ([2, 0, 1] : List Nat))
    ∧ execute_requests_packages (fun p : Nat => p + 1) [2, 0, 1] [10, 20, 30]
        = [some 11, some 21, some 31] :=
  ⟨by decide,
    by
      rw [claim_C3_executor_ordering (fun p : Nat => p + 1) [2, 0, 1] [10, 20, 30] (by decide)]
      decide⟩

/-- One spatial coordinate pair of a prediction (bounding-box centre,
keypoint or polygon point).  Coordinates are exact rationals. -/
structure PredictionPoint where
  x : ℚ
  y : ℚ
  deriving DecidableEq

/-- One response element: a label plus its spatial fields.  Modelled from the
spec: the spatial fields are "bounding-box coordinates, keypoint coordinates,
polygon/mask points" computed against the resized image
(`post_processing.py` is not under `src/`). -/
structure Prediction where
  label : String
  points : List PredictionPoint
  deriving DecidableEq

/-- Modelled from the spec: the Normalizer maps every spatial field "back
into original-image coordinate space by dividing by that image's scaling
factor"; an absent factor (image sent untouched, no resize requested) leaves
the prediction unchanged (`adjust_prediction_to_client_scaling_factor` of
`post_processing.py`, not under `src/`). -/
def adjust_prediction_to_client_scaling_factor (prediction : Prediction)
    (scaling_factor : Option ℚ) : Prediction :=
  match scaling_factor with
  | none => prediction
  | some factor =>
    { prediction with
        points := prediction.points.map (fun p => ⟨p.x / factor, p.y / factor⟩) }

/-- A prediction re-expressed in the resized coordinate space: every
coordinate multiplied by the scaling factor, as the backend would report it
for an image resized by that factor. -/
def scale_prediction (factor : ℚ) (prediction : Prediction) : Prediction :=
  { prediction with
      points := prediction.points.map (fun p => ⟨p.x * factor, p.y * factor⟩) }

/-- The per-element correction loop of `infer_from_api_v1` (`client.py`,
lines 397-411): the response elements of one package are paired positionally
with that package's per-image scaling factors, and each element is corrected
with its own image's factor. -/
def normalize_response_elements (parsed_response : List Prediction)
    (image_scaling_factors : List (Option ℚ)) : List Prediction :=
  List.zipWith
    (fun parsed_response_element scaling_factor =>
      adjust_prediction_to_client_scaling_factor parsed_response_element scaling_factor)
    parsed_response image_scaling_factors

/-- C7: the Normalizer divides every spatial coordinate by the image's own
scaling factor — a coordinate reported in a space resized by factor `f ≠ 0`
is mapped back exactly to its original value; a factor of `1` changes
nothing; and inside a multi-image batch response, element `i` is corrected
with the factor at position `i`, never with a factor shared across the
batch. -/
theorem claim_C7_scaling_correction (prediction : Prediction) (factor : ℚ)
    (parsed_response : List Prediction) (image_scaling_factors : List (Option ℚ))
    (i : Nat) (h1 : i < parsed_response.length) (h2 : i < image_scaling_factors.length) :
    ((adjust_prediction_to_client_scaling_factor prediction (some factor)).points
        = prediction.points.map (fun p => ⟨p.x / factor, p.y / factor⟩))
    ∧ (factor ≠ 0 →
        adjust_prediction_to_client_scaling_factor (scale_prediction factor prediction)
          (some factor) = prediction)
    ∧ adjust_prediction_to_client_scaling_factor prediction (some 1) = prediction
    ∧ (normalize_response_elements parsed_response image_scaling_factors)[i]?
        = some (adjust_prediction_to_client_scaling_factor parsed_response[i]
            image_scaling_factors[i]) := by
  refine ⟨rfl, ?_, ?_, ?_⟩
  · intro hf
    simp only [adjust_prediction_to_client_scaling_factor, scale_prediction, List.map_map]
    have hpoints : ∀ p : PredictionPoint,
        (⟨p.x * factor / factor, p.y * factor / factor⟩ : PredictionPoint) = p := by
      intro p
      have hx : p.x * factor / factor = p.x := mul_div_cancel_right₀ p.x hf
      have hy : p.y * factor / factor = p.y := mul_div_cancel_right₀ p.y hf
      rw [hx, hy]
    have hmap : prediction.points.map
        ((fun p : PredictionPoint => (⟨p.x / factor, p.y / factor⟩ : PredictionPoint))
          ∘ fun p => ⟨p.x * factor, p.y * factor⟩) = prediction.points := by
      simp only [Function.comp_def]
      rw [List.map_congr_left (fun p _ => hpoints p)]
      exact List.map_id' prediction.points
    rw [hmap]
  · simp only [adjust_prediction_to_client_scaling_factor, div_one]
    have hmap : prediction.points.map
        (fun p : PredictionPoint => (⟨p.x, p.y⟩ : PredictionPoint)) = prediction.points :=
      List.map_id' prediction.points
    rw [hmap]
  · have hz : i < (normalize_response_elements parsed_response image_scaling_factors).length := by
      simp only [normalize_response_elements, List.length_zipWith]
      omega
    rw [List.getElem?_eq_getElem hz]
    simp [normalize_response_elements]

/-- Witness for C7: a point at (10, 6) reported in a half-size image
(factor 1/2) is corrected back to (20, 12) … here shown via the exact
round-trip at factor 1/2 and the positional pairing at index 1 of a
two-image batch with distinct factors. -/
theorem claim_C7_scaling_correction_witness :
    ((1 : ℚ) / 2 ≠ 0
      ∧ adjust_prediction_to_client_scaling_factor
          (scale_prediction ((1 : ℚ) / 2) ⟨"cat", [⟨20, 12⟩]⟩) (some ((1 : ℚ) / 2))
          = ⟨"cat", [⟨20, 12⟩]⟩)
    ∧ (normalize_response_elements [⟨"a", [⟨4, 4⟩]⟩, ⟨"b", [⟨4, 4⟩]⟩]
        [some 2, some 4])[1]?
        = some (adjust_prediction_to_client_scaling_factor ⟨"b", [⟨4, 4⟩]⟩ (some 4)) :=
  ⟨⟨by norm_num,
    (claim_C7_scaling_correction ⟨"cat", [⟨20, 12⟩]⟩ ((1 : ℚ) / 2)
      [⟨"a", [⟨4, 4⟩]⟩, ⟨"b", [⟨4, 4⟩]⟩] [some 2, some 4] 1
      (by decide) (by decide)).2.1 (by norm_num)⟩,
    (claim_C7_scaling_correction ⟨"cat", [⟨20, 12⟩]⟩ ((1 : ℚ) / 2)
      [⟨"a", [⟨4, 4⟩]⟩, ⟨"b", [⟨4, 4⟩]⟩] [some 2, some 4] 1
      (by decide) (by decide)).2.2.2⟩

/-- `DEFAULT_HEADERS` (`client.py`, lines 62-64). -/
def DEFAULT_HEADERS : List (String × String) := [("Content-Type", "application/json")]

/-- Modelled from the spec (section 6 loader contract): the Input Loader
"must accept any ImageReference variant and return, per image, an encoded
payload plus a scaling factor"; a single reference loads to a one-element
list, a list of references loads per image in order
(`load_static_inference_input` of `loaders.py`, not under `src/`).
`encode` is the external per-image loading collaborator. -/
def load_static_inference_input {Ref : Type} (encode : Ref → EncodedImage)
    (inference_input : Ref ⊕ List Ref) : List EncodedImage :=
  match inference_input with
  | .inl single_image => [encode single_image]
  | .inr images => images.map encode

/-- Modelled from the spec: "a singleton logical result is always returned
unwrapped, never as a one-element sequence" — the helper receives only the
result sequence and unwraps it exactly when it has one element
(`unwrap_single_element_list` of `iterables.py`, not under `src/`). -/
def unwrap_single_element_list {α : Type} (sequence : List α) : α ⊕ List α :=
  match sequence with
  | [element] => Sum.inl element
  | _ => Sum.inr sequence

/-- The result list built by `infer_from_api_v0` (`client.py`, lines
230-285): encode the input, build one package per image (batch ceiling 1,
query-parameter placement), collect the per-package responses in package
order, and correct each parsed response with its package's single scaling
factor.  `respond` stands for the network round-trip plus response parsing
(the jpeg-visualization branch changes the content of a parsed response, not
the count). -/
def infer_from_api_v0_results {Ref : Type} (encode : Ref → EncodedImage)
    (respond : RequestData → Prediction) (url : String) (params : List (String × String))
    (inference_input : Ref ⊕ List Ref) : List Prediction :=
  let encoded_inference_inputs := load_static_inference_input encode inference_input
  let requests_data := prepare_requests_data url encoded_inference_inputs DEFAULT_HEADERS
      (some params) none 1
  let responses := requests_data.map respond
  List.zipWith
    (fun request_data response =>
      adjust_prediction_to_client_scaling_factor response
        (request_data.image_scaling_factors.getD 0 none))
    requests_data responses

/-- `infer_from_api_v0` (`client.py`, line 285): the final unwrap of the
result list. -/
def infer_from_api_v0 {Ref : Type} (encode : Ref → EncodedImage)
    (respond : RequestData → Prediction) (url : String) (params : List (String × String))
    (inference_input : Ref ⊕ List Ref) : Prediction ⊕ List Prediction :=
  unwrap_single_element_list
    (infer_from_api_v0_results encode respond url params inference_input)

/-- The result list built by `infer_from_api_v1` (`client.py`, lines
344-412): encode the input, batch it under the configured ceiling with
JSON-embedded placement, collect per-package responses in package order, and
correct the elements of each package's response with that package's per-image
scaling factors, positionally (the loop of lines 393-411, embedded as
`normalize_response_elements`).  `respond` stands for the network round-trip,
`response.json()` and the wrap of a single object into a one-element list. -/
def infer_from_api_v1_results {Ref : Type} (encode : Ref → EncodedImage)
    (respond : RequestData → List Prediction) (url : String)
    (payload : List (String × String)) (max_batch_size : Nat)
    (inference_input : Ref ⊕ List Ref) : List Prediction :=
  let encoded_inference_inputs := load_static_inference_input encode inference_input
  let requests_data := prepare_requests_data url encoded_inference_inputs DEFAULT_HEADERS
      none (some payload) max_batch_size
  let responses := requests_data.map respond
  (List.zipWith
    (fun request_data parsed_response =>
      normalize_response_elements parsed_response request_data.image_scaling_factors)
    requests_data responses).flatten

/-- `infer_from_api_v1` (`client.py`, line 412): the final unwrap of the
result list. -/
def infer_from_api_v1 {Ref : Type} (encode : Ref → EncodedImage)
    (respond : RequestData → List Prediction) (url : String)
    (payload : List (String × String)) (max_batch_size : Nat)
    (inference_input : Ref ⊕ List Ref) : Prediction ⊕ List Prediction :=
  unwrap_single_element_list
    (infer_from_api_v1_results encode respond url payload max_batch_size inference_input)

theorem unwrap_of_length_ne_one {α : Type} (l : List α) (h : l.length ≠ 1) :
    unwrap_single_element_list l = Sum.inr l := by
  match l with
  | [] => rfl
  | [x] => simp at h
  | x :: y :: t => rfl

theorem unwrap_of_length_one {α : Type} (l : List α) (h : l.length = 1) :
    (unwrap_single_element_list l).isLeft = true := by
  match l with
  | [] => simp at h
  | [x] => rfl
  | x :: y :: t => simp at h

theorem make_batches_one {α : Type} (l : List α) :
    make_batches 1 l = l.map (fun a => [a]) := by
  induction l with
  | nil => rfl
  | cons a t ih =>
    have hstep : make_batches 1 (a :: t) = [a] :: make_batches 1 t := by
      show make_batches_go 1 (t.length + 1) (a :: t) = [a] :: make_batches_go 1 t.length t
      simp [make_batches_go]
    rw [hstep, ih, List.map_cons]

theorem infer_from_api_v0_results_eq {Ref : Type} (encode : Ref → EncodedImage)
    (respond : RequestData → Prediction) (url : String) (params : List (String × String))
    (inference_input : Ref ⊕ List Ref) :
    infer_from_api_v0_results encode respond url params inference_input
      = (load_static_inference_input encode inference_input).map
          (fun e => adjust_prediction_to_client_scaling_factor
            (respond { url := url, headers := DEFAULT_HEADERS, parameters := some params,
                       payload := none, images := [e.payload],
                       image_scaling_factors := [e.scaling_factor] })
            e.scaling_factor) := by
  unfold infer_from_api_v0_results prepare_requests_data
  dsimp only
  rw [make_batches_one]
  conv_lhs => rw [List.zipWith_map_right, List.zipWith_same]
  simp [List.map_map, Function.comp_def, List.getD]

/-- Pulling a flatten of per-chunk zips into one zip of the flattened halves,
when each chunk's halves have equal length. -/
theorem flatten_map_zipWith {α β γ δ : Type} (f : β → γ → δ) (g : α → List β)
    (h : α → List γ) :
    ∀ (l : List α), (∀ a ∈ l, (g a).length = (h a).length) →
      (l.map (fun a => List.zipWith f (g a) (h a))).flatten
        = List.zipWith f (l.map g).flatten (l.map h).flatten := by
  intro l
  induction l with
  | nil => intro _; rfl
  | cons a t ih =>
    intro hlen
    simp only [List.map_cons, List.flatten_cons]
    rw [List.zipWith_append f (g a) ((t.map g).flatten) (h a) ((t.map h).flatten)
      (hlen a (List.mem_cons_self a t))]
    rw [ih (fun x hx => hlen x (List.mem_cons_of_mem a hx))]

theorem infer_from_api_v1_results_eq {Ref : Type} (encode : Ref → EncodedImage)
    (respond : RequestData → List Prediction) (url : String)
    (payload : List (String × String)) (B : Nat) (hB : 1 ≤ B)
    (hresp : ∀ rd, (respond rd).length = rd.images.length)
    (inference_input : Ref ⊕ List Ref) :
    infer_from_api_v1_results encode respond url payload B inference_input
      = List.zipWith adjust_prediction_to_client_scaling_factor
          ((prepare_requests_data url (load_static_inference_input encode inference_input)
              DEFAULT_HEADERS none (some payload) B).map respond).flatten
          ((load_static_inference_input encode inference_input).map
            EncodedImage.scaling_factor) := by
  have hcond : ∀ rd ∈ prepare_requests_data url
      (load_static_inference_input encode inference_input)
      DEFAULT_HEADERS none (some payload) B,
      (respond rd).length = rd.image_scaling_factors.length := by
    intro rd hrd
    rw [hresp rd]
    unfold prepare_requests_data at hrd
    obtain ⟨batch, hbatch, rfl⟩ := List.mem_map.mp hrd
    simp
  have hfac : ((prepare_requests_data url
      (load_static_inference_input encode inference_input)
      DEFAULT_HEADERS none (some payload) B).map
        (fun rd => rd.image_scaling_factors)).flatten
      = (load_static_inference_input encode inference_input).map
          EncodedImage.scaling_factor := by
    simp only [prepare_requests_data, List.map_map, Function.comp_def]
    rw [← List.map_flatten, make_batches_flatten B hB]
  unfold infer_from_api_v1_results normalize_response_elements
  dsimp only
  conv_lhs => rw [List.zipWith_map_right, List.zipWith_same]
  rw [flatten_map_zipWith
    (fun parsed_response_element scaling_factor =>
      adjust_prediction_to_client_scaling_factor parsed_response_element scaling_factor)
    respond (fun rd => rd.image_scaling_factors)
    (prepare_requests_data url (load_static_inference_input encode inference_input)
        DEFAULT_HEADERS none (some payload) B)
    hcond]
  rw [hfac]

theorem responses_flatten_length {Ref : Type} (encode : Ref → EncodedImage)
    (respond : RequestData → List Prediction) (url : String)
    (payload : List (String × String)) (B : Nat) (hB : 1 ≤ B)
    (hresp : ∀ rd, (respond rd).length = rd.images.length)
    (inference_input : Ref ⊕ List Ref) :
    ((prepare_requests_data url (load_static_inference_input encode inference_input)
        DEFAULT_HEADERS none (some payload) B).map respond).flatten.length
      = (load_static_inference_input encode inference_input).length := by
  rw [List.length_flatten, List.map_map]
  have hpoint : ((prepare_requests_data url
      (load_static_inference_input encode inference_input)
      DEFAULT_HEADERS none (some payload) B).map (List.length ∘ respond))
      = ((make_batches B (load_static_inference_input encode inference_input)).map
          List.length) := by
    simp only [prepare_requests_data, List.map_map, Function.comp_def]
    refine List.map_congr_left ?_
    intro batch _
    rw [hresp]
    simp
  rw [hpoint, ← List.length_flatten,
    make_batches_flatten B hB (load_static_inference_input encode inference_input)]

theorem infer_from_api_v1_results_length {Ref : Type} (encode : Ref → EncodedImage)
    (respond : RequestData → List Prediction) (url : String)
    (payload : List (String × String)) (B : Nat) (hB : 1 ≤ B)
    (hresp : ∀ rd, (respond rd).length = rd.images.length)
    (inference_input : Ref ⊕ List Ref) :
    (infer_from_api_v1_results encode respond url payload B inference_input).length
      = (load_static_inference_input encode inference_input).length := by
  rw [infer_from_api_v1_results_eq encode respond url payload B hB hresp]
  rw [List.length_zipWith, List.length_map,
    responses_flatten_length encode respond url payload B hB hresp]
  exact Nat.min_self _

/-- C1, counterexample: a list input of length one does NOT come back as a
one-element list — both protocol paths return the bare object, because the
final unwrap sees only the one-element result list and cannot distinguish a
single-image input from a singleton list input. -/
theorem claim_C1_counterexample :
    infer_from_api_v0 (fun r : String => ⟨r, none⟩) (fun _ => ⟨"p", []⟩) "u" []
        (Sum.inr ["img"]) = Sum.inl ⟨"p", []⟩
    ∧ infer_from_api_v1 (fun r : String => ⟨r, none⟩)
        (fun rd => rd.images.map (fun _ => ⟨"p", []⟩)) "u" [] 4
        (Sum.inr ["img"]) = Sum.inl ⟨"p", []⟩
    ∧ (infer_from_api_v0 (fun r : String => ⟨r, none⟩) (fun _ => ⟨"p", []⟩) "u" []
        (Sum.inr ["img"])).isRight = false := by
  refine ⟨rfl, rfl, rfl⟩

/-- C1, amended: a single-image input yields a bare object (the corrected
response to its one package); a list input yields the in-order image-by-image
result list, which is returned as a list whenever its length is not one —
but a length-1 list input also yields a bare object, exactly like a single
image, since the final unwrap is applied to the result list regardless of the
input's shape.  Order preservation: the Legacy result list is the map over
the input images in order, and the Current result list pairs position `i`
with image `i`'s scaling factor. -/
theorem claim_C1_result_shape_amended {Ref : Type} (encode : Ref → EncodedImage)
    (respond0 : RequestData → Prediction) (respond1 : RequestData → List Prediction)
    (url : String) (params payload : List (String × String)) (B : Nat)
    (r : Ref) (l : List Ref) (hB : 1 ≤ B)
    (hresp : ∀ rd, (respond1 rd).length = rd.images.length) :
    infer_from_api_v0 encode respond0 url params (Sum.inl r)
      = Sum.inl (adjust_prediction_to_client_scaling_factor
          (respond0 { url := url, headers := DEFAULT_HEADERS, parameters := some params,
                      payload := none, images := [(encode r).payload],
                      image_scaling_factors := [(encode r).scaling_factor] })
          (encode r).scaling_factor)
    ∧ infer_from_api_v0_results encode respond0 url params (Sum.inr l)
      = l.map (fun image => adjust_prediction_to_client_scaling_factor
          (respond0 { url := url, headers := DEFAULT_HEADERS, parameters := some params,
                      payload := none, images := [(encode image).payload],
                      image_scaling_factors := [(encode image).scaling_factor] })
          (encode image).scaling_factor)
    ∧ (l.length ≠ 1 → infer_from_api_v0 encode respond0 url params (Sum.inr l)
        = Sum.inr (infer_from_api_v0_results encode respond0 url params (Sum.inr l)))
    ∧ (l.length = 1 →
        (infer_from_api_v0 encode respond0 url params (Sum.inr l)).isLeft = true)
    ∧ (infer_from_api_v1 encode respond1 url payload B (Sum.inl r)).isLeft = true
    ∧ (infer_from_api_v1_results encode respond1 url payload B (Sum.inr l)).length
        = l.length
    ∧ infer_from_api_v1_results encode respond1 url payload B (Sum.inr l)
        = List.zipWith adjust_prediction_to_client_scaling_factor
            ((prepare_requests_data url (l.map encode) DEFAULT_HEADERS none
                (some payload) B).map respond1).flatten
            (l.map (fun image => (encode image).scaling_factor))
    ∧ (l.length ≠ 1 → infer_from_api_v1 encode respond1 url payload B (Sum.inr l)
        = Sum.inr (infer_from_api_v1_results encode respond1 url payload B (Sum.inr l)))
    ∧ (l.length = 1 →
        (infer_from_api_v1 encode respond1 url payload B (Sum.inr l)).isLeft = true) := by
  have hv0 := infer_from_api_v0_results_eq encode respond0 url params
  have hv0len : (infer_from_api_v0_results encode respond0 url params (Sum.inr l)).length
      = l.length := by
    rw [hv0 (Sum.inr l)]
    simp [load_static_inference_input]
  have hv1len : (infer_from_api_v1_results encode respond1 url payload B (Sum.inr l)).length
      = l.length := by
    rw [infer_from_api_v1_results_length encode respond1 url payload B hB hresp]
    simp [load_static_inference_input]
  refine ⟨?_, ?_, ?_, ?_, ?_, hv1len, ?_, ?_, ?_⟩
  · rw [infer_from_api_v0, hv0 (Sum.inl r)]
    rfl
  · rw [hv0 (Sum.inr l)]
    simp [load_static_inference_input, List.map_map, Function.comp_def]
  · intro h
    rw [infer_from_api_v0]
    exact unwrap_of_length_ne_one _ (by rw [hv0len]; exact h)
  · intro h
    rw [infer_from_api_v0]
    exact unwrap_of_length_one _ (by rw [hv0len]; exact h)
  · rw [infer_from_api_v1]
    refine unwrap_of_length_one _ ?_
    rw [infer_from_api_v1_results_length encode respond1 url payload B hB hresp]
    rfl
  · rw [infer_from_api_v1_results_eq encode respond1 url payload B hB hresp]
    simp [load_static_inference_input, List.map_map, Function.comp_def]
  · intro h
    rw [infer_from_api_v1]
    exact unwrap_of_length_ne_one _ (by rw [hv1len]; exact h)
  · intro h
    rw [infer_from_api_v1]
    exact unwrap_of_length_one _ (by rw [hv1len]; exact h)

/-- Witness for the amended C1 at a concrete two-image list: the Current-path
result list has length two (one result per input image, in order). -/
theorem claim_C1_result_shape_amended_witness :
    (1 : Nat) ≤ 2
    ∧ (infer_from_api_v1_results (fun r : String => ⟨r, none⟩)
        (fun rd => rd.images.map (fun _ => ⟨"p", []⟩)) "u" [] 2
        (Sum.inr ["a", "b"])).length = (["a", "b"] : List String).length :=
  ⟨by decide,
    (claim_C1_result_shape_amended (fun r : String => ⟨r, none⟩)
      (fun _ => ⟨"p", []⟩) (fun rd => rd.images.map (fun _ => ⟨"p", []⟩))
      "u" [] [] 2 "x" ["a", "b"] (by decide)
      (fun rd => by simp)).2.2.2.2.2.1⟩

end InferenceSDK
